import Mathlib

/-!
Shallow embedding of `src/main.py` of the repository
convert-pocket-csv-to-html: the core function
`_convert_data_to_html_bookmarks` and the Jinja2 template
`BOOKMARK_TEMPLATE_CONTENT`.

Modelling boundary: the Python code hands each input file's text (after
UTF-8 decoding and BOM stripping) to the external library
`csv.DictReader`, which turns it into a sequence of rows, each a mapping
from header column names to string values.  We model a row as an
association list `List (String × String)` with Python's `dict.get`
lookup-with-default semantics, and a file as either unreadable (any
exception raised by `open`/read, e.g. `FileNotFoundError`) or a sequence
of rows that `DictReader` successfully yields, together with a flag
saying whether an exception terminates the iteration after those rows
(e.g. `csv.Error` on malformed data).  Python's `str.strip` and
`str.lower` are modelled by `pyStrip` and `pyLower` below (ASCII
whitespace and letters; Python additionally folds non-ASCII letters and
strips non-ASCII spaces, which do not occur in the data of interest).
The Jinja2 environment is built with `select_autoescape(["html","xml"])`,
whose `default_for_string` is `True`, so every interpolation in the
string template is escaped with markupsafe's mapping; `escapeChar` below
is that mapping.  `typer.echo`/`typer.secho` calls are console logging
with no effect on the returned data and are not modelled.
-/

namespace PocketCsv

/-- A parsed CSV data row as produced by `csv.DictReader`: column name to
value, with `dict.get`-style lookup. -/
abbrev Row := List (String × String)

/-- Python `row.get(key, dflt)`. -/
def rowGet (row : Row) (key : String) (dflt : String) : String :=
  match row.lookup key with
  | some v => v
  | none => dflt

/-- The `bookmark_item` dict built at lines 67-73 of `src/main.py`. -/
structure Entity where
  url : String
  title : String
  add_date : String
  tags : String
  toread : Bool
deriving DecidableEq, Repr

/-- The whitespace set of Python `str.strip` (ASCII part). -/
def pyWhitespace (c : Char) : Bool :=
  c = ' ' || c = '\t' || c = '\n' || c = '\r' || c = '\x0b' || c = '\x0c'

/-- Python `str.strip()`: drop leading and trailing whitespace. -/
def pyStrip (s : String) : String :=
  ⟨((s.data.dropWhile pyWhitespace).reverse.dropWhile pyWhitespace).reverse⟩

/-- Python `str.lower()` (ASCII case folding). -/
def pyLower (s : String) : String :=
  ⟨s.data.map Char.toLower⟩

/-- Line 61 of `src/main.py`: `row.get('status', '').strip().lower()`. -/
def rowStatus (row : Row) : String :=
  pyLower (pyStrip (rowGet row "status" ""))

/-- Lines 67-73 of `src/main.py`: build the bookmark item from a row. -/
def mkEntity (row : Row) : Entity :=
  { url := rowGet row "url" ""
    title := rowGet row "title" ""
    add_date := rowGet row "time_added" ""
    tags := rowGet row "tags" ""
    toread := true }

/-- The mutable state of `_convert_data_to_html_bookmarks` during the
extraction loop: `processed_count`, `skipped_archived_count`,
`bookmarks_data`. -/
structure ExtractState where
  processed_count : Nat
  skipped_archived_count : Nat
  bookmarks_data : List Entity
deriving DecidableEq, Repr

/-- Lines 60-75 of `src/main.py`: the body of `for row in csvreader`.
An archived row increments the skip counter and yields no entity;
any other row appends one entity and increments the processed counter. -/
def processRow (st : ExtractState) (row : Row) : ExtractState :=
  if rowStatus row = "archive" then
    { st with skipped_archived_count := st.skipped_archived_count + 1 }
  else
    { st with
      bookmarks_data := st.bookmarks_data ++ [mkEntity row]
      processed_count := st.processed_count + 1 }

/-- One input file as seen by the extraction loop.
`unreadable`: `open`/read raises (e.g. `FileNotFoundError`), caught at
lines 76-79, so the file contributes nothing.
`readable rows err`: `csv.DictReader` yields `rows` in order; `err` is
true when an exception (malformed CSV, or a row value on which
`.strip()` fails) terminates the iteration after those rows, caught by
the same handler. -/
inductive FileInput where
  | unreadable : FileInput
  | readable (rows : List Row) (err : Bool) : FileInput
deriving DecidableEq, Repr

/-- Lines 50-79 of `src/main.py`: the per-file step of the loop.  The
`try`/`except` catches any exception and moves on to the next file;
counter increments and entities appended before the exception are kept
(the state variables are not rolled back). -/
def processFile (st : ExtractState) (f : FileInput) : ExtractState :=
  match f with
  | .unreadable => st
  | .readable rows _err => rows.foldl processRow st

/-- The whole extraction phase (lines 40-79): fold the per-file step over
the input files, starting from zero counters and an empty entity list. -/
def extract (files : List FileInput) : ExtractState :=
  files.foldl processFile { processed_count := 0, skipped_archived_count := 0, bookmarks_data := [] }

/-- A file whose rows all reached the loop body without an exception. -/
def parsedOk : FileInput → Bool
  | .readable _ true => false
  | _ => true

/-- Number of data rows (header excluded) yielded by one file. -/
def fileRowCount : FileInput → Nat
  | .unreadable => 0
  | .readable rows _ => rows.length

/-- Total data rows across the readable files of a run. -/
def totalDataRows (files : List FileInput) : Nat :=
  (files.map fileRowCount).sum

/-! ## The renderer: `BOOKMARK_TEMPLATE_CONTENT` under Jinja2 -/

/-- markupsafe's `escape`, applied by Jinja2 autoescaping to every
interpolated value of the template (the explicit `|e` filters are
redundant with autoescaping on). -/
def escapeChar (c : Char) : List Char :=
  if c = '&' then ['&', 'a', 'm', 'p', ';']
  else if c = '<' then ['&', 'l', 't', ';']
  else if c = '>' then ['&', 'g', 't', ';']
  else if c = '\"' then ['&', '#', '3', '4', ';']
  else if c = '\'' then ['&', '#', '3', '9', ';']
  else [c]

/-- Escape a character list. -/
def escapeList : List Char → List Char
  | [] => []
  | c :: cs => escapeChar c ++ escapeList cs

/-- HTML-escape a string, as Jinja2/markupsafe does. -/
def htmlEscape (s : String) : String :=
  ⟨escapeList s.data⟩

/-- HTML-unescaping of the five entities the escaper emits (the relevant
fragment of Python's `html.unescape`): an ampersand starting one of
the entity spellings is decoded, every other character passes through. -/
def unescapeChars (l : List Char) : List Char :=
  match l with
  | [] => []
  | c :: rest =>
    if c = '&' then
      if rest.take 4 = ['a', 'm', 'p', ';'] then '&' :: unescapeChars (rest.drop 4)
      else if rest.take 3 = ['l', 't', ';'] then '<' :: unescapeChars (rest.drop 3)
      else if rest.take 3 = ['g', 't', ';'] then '>' :: unescapeChars (rest.drop 3)
      else if rest.take 4 = ['#', '3', '4', ';'] then '\"' :: unescapeChars (rest.drop 4)
      else if rest.take 4 = ['#', '3', '9', ';'] then '\'' :: unescapeChars (rest.drop 4)
      else c :: unescapeChars rest
    else c :: unescapeChars rest
termination_by l.length
decreasing_by all_goals (simp only [List.length_drop, List.length_cons]; omega)

/-- HTML-unescape a string. -/
def htmlUnescape (s : String) : String :=
  ⟨unescapeChars s.data⟩

/-- Line 19 of `src/main.py`: one `<DT>` line of the template, with every
interpolation autoescaped and the `TOREAD` attribute guarded by the
template's if-tag on `bookmark.toread` (a Lean conditional here). -/
def renderBookmarkLine (b : Entity) : String :=
  "    <DT><A HREF=\"" ++ htmlEscape b.url ++ "\" ADD_DATE=\"" ++ htmlEscape b.add_date
    ++ "\" TAGS=\"" ++ htmlEscape b.tags ++ "\""
    ++ (if b.toread then " TOREAD=\"yes\"" else "")
    ++ ">" ++ htmlEscape b.title ++ "</A>"

/-- Lines 12-17 of the template: the fixed preamble, up to and including
the newline before the for-tag. -/
def templatePreamble : String :=
  "<!DOCTYPE NETSCAPE-Bookmark-file-1>\n<!-- This is an automatically generated file. -->\n<META HTTP-EQUIV=\"Content-Type\" CONTENT=\"text/html; charset=UTF-8\">\n<TITLE>Bookmarks</TITLE>\n<H1>Pocket Non-Archived Bookmarks</H1>\n<DL><p>\n"

/-- `template.render(bookmarks=...)` (line 81): with Jinja2 defaults
(`trim_blocks` off) each loop iteration emits the newline after the
for-tag, the `<DT>` line, and its newline; `keep_trailing_newline` off
drops the template's final newline. -/
def renderDocument (bs : List Entity) : String :=
  templatePreamble
    ++ String.join (bs.map (fun b => "\n" ++ renderBookmarkLine b ++ "\n"))
    ++ "\n</DL><p>"

/-- What `_convert_data_to_html_bookmarks` produces: the returned pair
and the document rendered in memory (written to disk only when the write
succeeds). -/
structure ConvResult where
  processed : Nat
  skipped : Nat
  document : String
deriving DecidableEq, Repr

/-- Lines 24-92 of `src/main.py`: extract, render, then attempt the
write.  `writeOk` says whether `open(output, 'w')`/`write` succeeds; on
failure the `except` at lines 88-90 returns `0, skipped_archived_count`. -/
def convertDataToHtmlBookmarks (files : List FileInput) (writeOk : Bool) : ConvResult :=
  let st := extract files
  let doc := renderDocument st.bookmarks_data
  if writeOk then
    { processed := st.processed_count, skipped := st.skipped_archived_count, document := doc }
  else
    { processed := 0, skipped := st.skipped_archived_count, document := doc }

/-- `seg` occurs contiguously inside `l`. -/
def hasSegment (seg l : List Char) : Prop :=
  ∃ pre post, l = pre ++ seg ++ post

/-- A character the escaper is allowed to leave in its output: anything
except the four markup-significant characters. -/
def safeChar (c : Char) : Bool :=
  !(c == '<' || c == '>' || c == '\"' || c == '\'')

/-! ## Lemmas about escaping -/

theorem unescapeChars_amp (l : List Char) :
    unescapeChars ('&' :: 'a' :: 'm' :: 'p' :: ';' :: l) = '&' :: unescapeChars l := by
  rw [unescapeChars]
  simp

theorem unescapeChars_lt (l : List Char) :
    unescapeChars ('&' :: 'l' :: 't' :: ';' :: l) = '<' :: unescapeChars l := by
  rw [unescapeChars]
  simp

theorem unescapeChars_gt (l : List Char) :
    unescapeChars ('&' :: 'g' :: 't' :: ';' :: l) = '>' :: unescapeChars l := by
  rw [unescapeChars]
  simp

theorem unescapeChars_quot (l : List Char) :
    unescapeChars ('&' :: '#' :: '3' :: '4' :: ';' :: l) = '\"' :: unescapeChars l := by
  rw [unescapeChars]
  simp

theorem unescapeChars_apos (l : List Char) :
    unescapeChars ('&' :: '#' :: '3' :: '9' :: ';' :: l) = '\'' :: unescapeChars l := by
  rw [unescapeChars]
  simp

theorem unescapeChars_cons_ne (c : Char) (h : c ≠ '&') (l : List Char) :
    unescapeChars (c :: l) = c :: unescapeChars l := by
  rw [unescapeChars]
  simp [h]

theorem escapeChar_of_plain (c : Char) (h1 : c ≠ '&') (h2 : c ≠ '<') (h3 : c ≠ '>')
    (h4 : c ≠ '\"') (h5 : c ≠ '\'') : escapeChar c = [c] := by
  simp [escapeChar, h1, h2, h3, h4, h5]

theorem unescape_escape_list (cs : List Char) : unescapeChars (escapeList cs) = cs := by
  induction cs with
  | nil =>
    rw [escapeList, unescapeChars]
  | cons c cs ih =>
    rw [escapeList]
    by_cases h1 : c = '&'
    · subst h1
      rw [show escapeChar '&' = ['&', 'a', 'm', 'p', ';'] from rfl]
      simp only [List.cons_append, List.nil_append]
      rw [unescapeChars_amp, ih]
    · by_cases h2 : c = '<'
      · subst h2
        rw [show escapeChar '<' = ['&', 'l', 't', ';'] from rfl]
        simp only [List.cons_append, List.nil_append]
        rw [unescapeChars_lt, ih]
      · by_cases h3 : c = '>'
        · subst h3
          rw [show escapeChar '>' = ['&', 'g', 't', ';'] from rfl]
          simp only [List.cons_append, List.nil_append]
          rw [unescapeChars_gt, ih]
        · by_cases h4 : c = '\"'
          · subst h4
            rw [show escapeChar '\"' = ['&', '#', '3', '4', ';'] from rfl]
            simp only [List.cons_append, List.nil_append]
            rw [unescapeChars_quot, ih]
          · by_cases h5 : c = '\''
            · subst h5
              rw [show escapeChar '\'' = ['&', '#', '3', '9', ';'] from rfl]
              simp only [List.cons_append, List.nil_append]
              rw [unescapeChars_apos, ih]
            · rw [escapeChar_of_plain c h1 h2 h3 h4 h5]
              simp only [List.cons_append, List.nil_append]
              rw [unescapeChars_cons_ne c h1, ih]

theorem escapeList_safe (cs : List Char) : (escapeList cs).all safeChar = true := by
  induction cs with
  | nil => rfl
  | cons c cs ih =>
    rw [escapeList, List.all_append, ih, Bool.and_true]
    by_cases h1 : c = '&'
    · subst h1; rfl
    · by_cases h2 : c = '<'
      · subst h2; rfl
      · by_cases h3 : c = '>'
        · subst h3; rfl
        · by_cases h4 : c = '\"'
          · subst h4; rfl
          · by_cases h5 : c = '\''
            · subst h5; rfl
            · rw [escapeChar_of_plain c h1 h2 h3 h4 h5]
              simp [safeChar, h2, h3, h4, h5]

theorem htmlUnescape_htmlEscape (s : String) : htmlUnescape (htmlEscape s) = s := by
  cases s with
  | mk data =>
    simp only [htmlEscape, htmlUnescape]
    rw [unescape_escape_list]

/-! ## Lemmas about extraction -/

theorem processRow_counts (st : ExtractState) (r : Row) :
    (processRow st r).processed_count + (processRow st r).skipped_archived_count
      = st.processed_count + st.skipped_archived_count + 1 := by
  unfold processRow
  split <;> simp <;> omega

theorem processRow_len (st : ExtractState) (r : Row) :
    (processRow st r).bookmarks_data.length + st.processed_count
      = (processRow st r).processed_count + st.bookmarks_data.length := by
  unfold processRow
  split <;> simp <;> omega

theorem foldRows_counts (rows : List Row) (st : ExtractState) :
    (rows.foldl processRow st).processed_count + (rows.foldl processRow st).skipped_archived_count
      = st.processed_count + st.skipped_archived_count + rows.length := by
  induction rows generalizing st with
  | nil => simp
  | cons r rows ih =>
    rw [List.foldl_cons, ih (processRow st r)]
    have h := processRow_counts st r
    simp only [List.length_cons]
    omega

theorem foldRows_len (rows : List Row) (st : ExtractState) :
    (rows.foldl processRow st).bookmarks_data.length + st.processed_count
      = (rows.foldl processRow st).processed_count + st.bookmarks_data.length := by
  induction rows generalizing st with
  | nil => simp [Nat.add_comm]
  | cons r rows ih =>
    rw [List.foldl_cons]
    have h1 := ih (processRow st r)
    have h2 := processRow_len st r
    omega

theorem processFile_counts (st : ExtractState) (f : FileInput) :
    (processFile st f).processed_count + (processFile st f).skipped_archived_count
      = st.processed_count + st.skipped_archived_count + fileRowCount f := by
  cases f with
  | unreadable => simp [processFile, fileRowCount]
  | readable rows err => simpa [processFile, fileRowCount] using foldRows_counts rows st

theorem processFile_len (st : ExtractState) (f : FileInput) :
    (processFile st f).bookmarks_data.length + st.processed_count
      = (processFile st f).processed_count + st.bookmarks_data.length := by
  cases f with
  | unreadable => simp [processFile, Nat.add_comm]
  | readable rows err => simpa [processFile] using foldRows_len rows st

theorem foldFiles_counts (files : List FileInput) (st : ExtractState) :
    (files.foldl processFile st).processed_count + (files.foldl processFile st).skipped_archived_count
      = st.processed_count + st.skipped_archived_count + totalDataRows files := by
  induction files generalizing st with
  | nil => simp [totalDataRows]
  | cons f files ih =>
    rw [List.foldl_cons]
    have h1 := ih (processFile st f)
    have h2 := processFile_counts st f
    have h3 : totalDataRows (f :: files) = fileRowCount f + totalDataRows files := by
      simp [totalDataRows]
    omega

theorem foldFiles_len (files : List FileInput) (st : ExtractState) :
    (files.foldl processFile st).bookmarks_data.length + st.processed_count
      = (files.foldl processFile st).processed_count + st.bookmarks_data.length := by
  induction files generalizing st with
  | nil => simp [Nat.add_comm]
  | cons f files ih =>
    rw [List.foldl_cons]
    have h1 := ih (processFile st f)
    have h2 := processFile_len st f
    omega

theorem processRow_toread (st : ExtractState) (r : Row)
    (h : ∀ e ∈ st.bookmarks_data, e.toread = true) :
    ∀ e ∈ (processRow st r).bookmarks_data, e.toread = true := by
  unfold processRow
  split
  · exact h
  · intro e he
    simp only [List.mem_append, List.mem_singleton] at he
    cases he with
    | inl hm => exact h e hm
    | inr hm => rw [hm]; rfl

theorem foldRows_toread (rows : List Row) (st : ExtractState)
    (h : ∀ e ∈ st.bookmarks_data, e.toread = true) :
    ∀ e ∈ (rows.foldl processRow st).bookmarks_data, e.toread = true := by
  induction rows generalizing st with
  | nil => exact h
  | cons r rows ih =>
    rw [List.foldl_cons]
    exact ih (processRow st r) (processRow_toread st r h)

theorem foldFiles_toread (files : List FileInput) (st : ExtractState)
    (h : ∀ e ∈ st.bookmarks_data, e.toread = true) :
    ∀ e ∈ (files.foldl processFile st).bookmarks_data, e.toread = true := by
  induction files generalizing st with
  | nil => exact h
  | cons f files ih =>
    rw [List.foldl_cons]
    refine ih (processFile st f) ?_
    cases f with
    | unreadable => exact h
    | readable rows err => exact foldRows_toread rows st h

theorem extract_toread (files : List FileInput) :
    ∀ e ∈ (extract files).bookmarks_data, e.toread = true := by
  unfold extract
  exact foldFiles_toread files _ (by intro e he; simp at he)

theorem rowGet_of_isNone (row : Row) (k d : String) (h : (row.lookup k).isNone) :
    rowGet row k d = d := by
  unfold rowGet
  cases hk : row.lookup k with
  | none => rfl
  | some v => rw [hk] at h; simp at h

theorem rowGet_of_some (row : Row) (k d v : String) (h : row.lookup k = some v) :
    rowGet row k d = v := by
  unfold rowGet
  rw [h]

/-! ## The claims -/

/-- Claim C1: over a run whose input files are all read and parsed to the
end without error, the processed count plus the skipped-archived count
equals the total number of data rows (header rows excluded) across those
files, and the number of entities produced equals the processed count —
each data row either increments the skip counter or produces exactly one
entity. -/
theorem counts_partition_rows (files : List FileInput)
    (h : ∀ f ∈ files, parsedOk f = true) :
    (extract files).processed_count + (extract files).skipped_archived_count
        = totalDataRows files
    ∧ (extract files).bookmarks_data.length = (extract files).processed_count
    ∧ (convertDataToHtmlBookmarks files true).processed
        + (convertDataToHtmlBookmarks files true).skipped = totalDataRows files := by
  refine ⟨?_, ?_, ?_⟩
  · simpa [extract] using foldFiles_counts files
      { processed_count := 0, skipped_archived_count := 0, bookmarks_data := [] }
  · simpa [extract] using foldFiles_len files
      { processed_count := 0, skipped_archived_count := 0, bookmarks_data := [] }
  · simpa [extract] using foldFiles_counts files
      { processed_count := 0, skipped_archived_count := 0, bookmarks_data := [] }

/-- A concrete run for the C1 witness: one readable two-row file and one
unreadable file. -/
def c1Files : List FileInput :=
  [.readable [[("status", "unread"), ("url", "http://a.com")], [("status", "archive")]] false,
   .unreadable]

/-- Witness for C1 at a concrete run: 1 processed + 1 skipped = 2 rows. -/
theorem counts_partition_rows_witness :
    (extract c1Files).processed_count + (extract c1Files).skipped_archived_count
        = totalDataRows c1Files
    ∧ (extract c1Files).bookmarks_data.length = (extract c1Files).processed_count
    ∧ (convertDataToHtmlBookmarks c1Files true).processed
        + (convertDataToHtmlBookmarks c1Files true).skipped = totalDataRows c1Files :=
  counts_partition_rows c1Files (by decide)

/-- Claim C2: a data row is skipped (skip counter incremented, entity
list and processed counter unchanged) exactly when its status value,
whitespace-trimmed and lowercased, equals the literal "archive"; any
other status appends exactly one entity and increments the processed
counter.  "Archive", " archive " and "ARCHIVE" are all skipped;
"unread" is not. -/
theorem archive_filter_iff (st : ExtractState) (row : Row) :
    (((processRow st row).skipped_archived_count = st.skipped_archived_count + 1
        ∧ (processRow st row).bookmarks_data = st.bookmarks_data
        ∧ (processRow st row).processed_count = st.processed_count)
      ↔ pyLower (pyStrip (rowGet row "status" "")) = "archive")
    ∧ (pyLower (pyStrip (rowGet row "status" "")) ≠ "archive"
        → (processRow st row).bookmarks_data = st.bookmarks_data ++ [mkEntity row]
          ∧ (processRow st row).processed_count = st.processed_count + 1
          ∧ (processRow st row).skipped_archived_count = st.skipped_archived_count)
    ∧ rowStatus [("status", "Archive")] = "archive"
    ∧ rowStatus [("status", " archive ")] = "archive"
    ∧ rowStatus [("status", "ARCHIVE")] = "archive"
    ∧ rowStatus [("status", "unread")] ≠ "archive" := by
  have hs : rowStatus row = pyLower (pyStrip (rowGet row "status" "")) := rfl
  refine ⟨?_, ?_, by decide, by decide, by decide, by decide⟩
  · constructor
    · intro hcase
      by_contra hne
      have hp : (processRow st row).processed_count = st.processed_count + 1 := by
        unfold processRow
        rw [if_neg (hs ▸ hne)]
      omega
    · intro heq
      unfold processRow
      rw [if_pos (hs ▸ heq)]
      exact ⟨rfl, rfl, rfl⟩
  · intro hne
    unfold processRow
    rw [if_neg (hs ▸ hne)]
    exact ⟨rfl, rfl, rfl⟩

/-- Witness for C2: the trimmed, case-folded status " archive " skips the
row at a concrete state. -/
theorem archive_filter_iff_witness :
    (processRow { processed_count := 0, skipped_archived_count := 0, bookmarks_data := [] }
        [("status", " archive ")]).skipped_archived_count = 0 + 1 :=
  ((archive_filter_iff
      { processed_count := 0, skipped_archived_count := 0, bookmarks_data := [] }
      [("status", " archive ")]).1.mpr (by decide)).1

/-- Claim C3: every interpolated field of a rendered bookmark line (url,
add_date, tags, title) is inserted through the HTML escaper; the
escaper's output never contains a raw markup character, and escaping
round-trips: HTML-unescaping the escaped text reconstructs the original
string exactly, in particular for a title containing a script tag,
ampersand and both kinds of quotes. -/
theorem escaping_fields_roundtrip :
    (∀ s : String, htmlUnescape (htmlEscape s) = s)
    ∧ (∀ s : String, (htmlEscape s).data.all safeChar = true)
    ∧ (∀ b : Entity, renderBookmarkLine b
        = "    <DT><A HREF=\"" ++ htmlEscape b.url ++ "\" ADD_DATE=\"" ++ htmlEscape b.add_date
            ++ "\" TAGS=\"" ++ htmlEscape b.tags ++ "\""
            ++ (if b.toread then " TOREAD=\"yes\"" else "")
            ++ ">" ++ htmlEscape b.title ++ "</A>")
    ∧ htmlUnescape (htmlEscape "<script>&\"'") = "<script>&\"'" :=
  ⟨htmlUnescape_htmlEscape,
   fun s => escapeList_safe s.data,
   fun _ => rfl,
   htmlUnescape_htmlEscape _⟩

theorem renderLine_of_toread (b : Entity) (h : b.toread = true) :
    renderBookmarkLine b
      = "    <DT><A HREF=\"" ++ htmlEscape b.url ++ "\" ADD_DATE=\"" ++ htmlEscape b.add_date
          ++ "\" TAGS=\"" ++ htmlEscape b.tags ++ "\"" ++ " TOREAD=\"yes\"" ++ ">"
          ++ htmlEscape b.title ++ "</A>" := by
  unfold renderBookmarkLine
  rw [h]
  rfl

theorem renderLine_of_not_toread (b : Entity) (h : b.toread = false) :
    renderBookmarkLine b
      = "    <DT><A HREF=\"" ++ htmlEscape b.url ++ "\" ADD_DATE=\"" ++ htmlEscape b.add_date
          ++ "\" TAGS=\"" ++ htmlEscape b.tags ++ "\"" ++ ">"
          ++ htmlEscape b.title ++ "</A>" := by
  unfold renderBookmarkLine
  rw [h]
  simp [String.append_empty]

theorem renderLine_hasSegment (b : Entity) (h : b.toread = true) :
    hasSegment (" TOREAD=\"yes\"").data (renderBookmarkLine b).data := by
  rw [renderLine_of_toread b h]
  refine ⟨("    <DT><A HREF=\"" ++ htmlEscape b.url ++ "\" ADD_DATE=\"" ++ htmlEscape b.add_date
      ++ "\" TAGS=\"" ++ htmlEscape b.tags ++ "\"").data,
    (">" ++ htmlEscape b.title ++ "</A>").data, ?_⟩
  simp [String.data_append, List.append_assoc]

/-- Claim C4: every entity that reaches the renderer has its to-read flag
true, and the rendered anchor line carries the TOREAD="yes" attribute
exactly when the entity's to-read field is true — the template emits it
conditionally on the field, so a false flag would drop the attribute;
hence every anchor line rendered for an extracted entity contains
TOREAD="yes". -/
theorem toread_invariant_and_attr :
    (∀ files : List FileInput, ∀ e ∈ (extract files).bookmarks_data, e.toread = true)
    ∧ (∀ b : Entity, b.toread = true → renderBookmarkLine b
        = "    <DT><A HREF=\"" ++ htmlEscape b.url ++ "\" ADD_DATE=\"" ++ htmlEscape b.add_date
            ++ "\" TAGS=\"" ++ htmlEscape b.tags ++ "\"" ++ " TOREAD=\"yes\"" ++ ">"
            ++ htmlEscape b.title ++ "</A>")
    ∧ (∀ b : Entity, b.toread = false → renderBookmarkLine b
        = "    <DT><A HREF=\"" ++ htmlEscape b.url ++ "\" ADD_DATE=\"" ++ htmlEscape b.add_date
            ++ "\" TAGS=\"" ++ htmlEscape b.tags ++ "\"" ++ ">"
            ++ htmlEscape b.title ++ "</A>")
    ∧ (∀ files : List FileInput, ∀ e ∈ (extract files).bookmarks_data,
        hasSegment (" TOREAD=\"yes\"").data (renderBookmarkLine e).data) :=
  ⟨extract_toread, renderLine_of_toread, renderLine_of_not_toread,
   fun files e he => renderLine_hasSegment e (extract_toread files e he)⟩

/-- The single data row of the C4 witness run. -/
def c4Row : Row := [("status", "unread"), ("title", "A")]

/-- Witness for C4: the entity extracted from a concrete one-row run has
the to-read flag and its rendered line contains TOREAD="yes". -/
theorem toread_invariant_and_attr_witness :
    (mkEntity c4Row).toread = true
    ∧ hasSegment (" TOREAD=\"yes\"").data (renderBookmarkLine (mkEntity c4Row)).data := by
  have h := toread_invariant_and_attr
  exact ⟨h.1 [FileInput.readable [c4Row] false] (mkEntity c4Row) (by decide),
         h.2.2.2 [FileInput.readable [c4Row] false] (mkEntity c4Row) (by decide)⟩

/-- The C5 scenario: a file whose reader yields one non-archived data row
and then fails with a parse error. -/
def c5File : FileInput := .readable [[("status", "unread"), ("url", "http://a.com")]] true

/-- Counterexample to claim C5 as stated: a file that fails to parse
mid-way does not contribute zero entities and zero counter increments —
the row parsed before the failure keeps its entity and its
processed-count increment. -/
theorem partial_rows_not_discarded :
    (extract [c5File]).processed_count = 1
    ∧ (extract [c5File]).bookmarks_data
      = [{ url := "http://a.com", title := "", add_date := "", tags := "", toread := true }] := by
  constructor <;> rfl

/-- Amended C5: when a row of a file fails to parse, the run continues
with the next file, but the rows already parsed from that file are
retained, keeping their entities and counter increments (no
all-or-nothing rollback): the extraction state is entirely independent
of the parse-error flag. -/
theorem parse_error_retains_partial (rows : List Row) (e₁ e₂ : Bool)
    (rest : List FileInput) (st : ExtractState) :
    (FileInput.readable rows e₁ :: rest).foldl processFile st
      = (FileInput.readable rows e₂ :: rest).foldl processFile st := rfl

/-- The C6 scenario: one readable file with one non-archived row. -/
def c6Files : List FileInput := [.readable [[("status", "unread"), ("url", "http://a.com")]] false]

/-- Counterexample to claim C6 as stated: when the output write fails,
the processed count computed during extraction (here 1) is not reported
to the caller — the function returns 0 in its place. -/
theorem write_error_drops_processed_count :
    (extract c6Files).processed_count = 1
    ∧ (convertDataToHtmlBookmarks c6Files false).processed = 0 := by
  constructor <;> rfl

/-- Amended C6: on a write failure the function reports the write error
and returns 0 as the processed count — signalling that no output was
written — together with the true skipped-archived count from extraction;
on a successful write both extraction counts are returned unchanged, and
the document is rendered from the extraction either way. -/
theorem write_error_reporting (files : List FileInput) :
    (convertDataToHtmlBookmarks files false).processed = 0
    ∧ (convertDataToHtmlBookmarks files false).skipped = (extract files).skipped_archived_count
    ∧ (convertDataToHtmlBookmarks files true).processed = (extract files).processed_count
    ∧ (convertDataToHtmlBookmarks files true).skipped = (extract files).skipped_archived_count
    ∧ (convertDataToHtmlBookmarks files false).document
      = renderDocument (extract files).bookmarks_data :=
  ⟨rfl, rfl, rfl, rfl, rfl⟩

/-- Claim C7: the entity built from a data row copies url, title,
time_added (as add_date) and tags from the row, substituting the empty
string whenever the lookup misses (column absent from the header), sets
the to-read flag, and — when the row is not archived — is appended as
exactly one new entity with the processed counter incremented (no
error). -/
theorem field_mapping (row : Row) :
    ((row.lookup "url").isNone → (mkEntity row).url = "")
    ∧ (∀ v, row.lookup "url" = some v → (mkEntity row).url = v)
    ∧ ((row.lookup "title").isNone → (mkEntity row).title = "")
    ∧ (∀ v, row.lookup "title" = some v → (mkEntity row).title = v)
    ∧ ((row.lookup "time_added").isNone → (mkEntity row).add_date = "")
    ∧ (∀ v, row.lookup "time_added" = some v → (mkEntity row).add_date = v)
    ∧ ((row.lookup "tags").isNone → (mkEntity row).tags = "")
    ∧ (∀ v, row.lookup "tags" = some v → (mkEntity row).tags = v)
    ∧ (mkEntity row).toread = true
    ∧ (rowStatus row ≠ "archive" → ∀ st : ExtractState,
        (processRow st row).bookmarks_data = st.bookmarks_data ++ [mkEntity row]
        ∧ (processRow st row).processed_count = st.processed_count + 1) := by
  refine ⟨fun h => rowGet_of_isNone row "url" "" h,
          fun v h => rowGet_of_some row "url" "" v h,
          fun h => rowGet_of_isNone row "title" "" h,
          fun v h => rowGet_of_some row "title" "" v h,
          fun h => rowGet_of_isNone row "time_added" "" h,
          fun v h => rowGet_of_some row "time_added" "" v h,
          fun h => rowGet_of_isNone row "tags" "" h,
          fun v h => rowGet_of_some row "tags" "" v h,
          rfl, ?_⟩
  intro hne st
  unfold processRow
  rw [if_neg hne]
  exact ⟨rfl, rfl⟩

/-- The C7 witness row: an input file with no tags column at all. -/
def c7Row : Row := [("status", "unread"), ("url", "http://a.com"), ("title", "A"), ("time_added", "100")]

/-- Witness for C7: a row without a tags key yields an entity with
empty-string tags, copied url, and is processed as one entity. -/
theorem field_mapping_witness :
    (mkEntity c7Row).tags = ""
    ∧ (mkEntity c7Row).url = "http://a.com"
    ∧ (processRow { processed_count := 0, skipped_archived_count := 0, bookmarks_data := [] }
        c7Row).bookmarks_data = [mkEntity c7Row]
    ∧ (processRow { processed_count := 0, skipped_archived_count := 0, bookmarks_data := [] }
        c7Row).processed_count = 0 + 1 := by
  obtain ⟨h1, h2, h3, h4, h5, h6, h7, h8, h9, h10⟩ := field_mapping c7Row
  have hp := h10 (by decide) { processed_count := 0, skipped_archived_count := 0, bookmarks_data := [] }
  exact ⟨h7 (by decide), h2 "http://a.com" (by decide), hp.1, hp.2⟩

/-- Claim C8: an unreadable input path contributes zero entities and zero
counter increments and does not affect the other files of the run: the
extraction over any run with the unreadable file inserted anywhere
equals the extraction over the same run without it (the per-file error
is logged to the console only). -/
theorem unreadable_file_isolated (pre post : List FileInput) :
    extract (pre ++ FileInput.unreadable :: post) = extract (pre ++ post) := by
  unfold extract
  rw [List.foldl_append, List.foldl_append, List.foldl_cons]
  rfl

/-- Claim C9: the conversion is deterministic — the returned counts and
the rendered document are a pure function of the ordered input file
contents (the source computes the document from the parsed rows alone,
reading no clock and no environment), so two runs on identical inputs
produce byte-identical documents and identical counts. -/
theorem conversion_deterministic (files₁ files₂ : List FileInput) (w : Bool)
    (h : files₁ = files₂) :
    convertDataToHtmlBookmarks files₁ w = convertDataToHtmlBookmarks files₂ w
    ∧ (convertDataToHtmlBookmarks files₁ w).document
      = renderDocument (extract files₁).bookmarks_data := by
  subst h
  refine ⟨rfl, ?_⟩
  cases w <;> rfl

/-- Witness for C9 at a concrete run. -/
theorem conversion_deterministic_witness :
    convertDataToHtmlBookmarks [FileInput.unreadable] true
      = convertDataToHtmlBookmarks [FileInput.unreadable] true :=
  (conversion_deterministic [FileInput.unreadable] [FileInput.unreadable] true rfl).1

/-- Claim C10: extraction failures never suppress rendering or the write
attempt: whatever the inputs and the write outcome, the document handed
to the write step is the rendering of the (possibly empty) extracted
entity sequence; a run of any number of unreadable files extracts
nothing; and the empty rendering is exactly the fixed preamble (doctype,
comment, meta tag, title, heading) with an empty list closed by the
final list tag. -/
theorem render_always_invoked :
    (∀ (files : List FileInput) (w : Bool),
      (convertDataToHtmlBookmarks files w).document
        = renderDocument (extract files).bookmarks_data)
    ∧ (∀ n : Nat, extract (List.replicate n FileInput.unreadable)
        = { processed_count := 0, skipped_archived_count := 0, bookmarks_data := [] })
    ∧ renderDocument []
      = "<!DOCTYPE NETSCAPE-Bookmark-file-1>\n<!-- This is an automatically generated file. -->\n<META HTTP-EQUIV=\"Content-Type\" CONTENT=\"text/html; charset=UTF-8\">\n<TITLE>Bookmarks</TITLE>\n<H1>Pocket Non-Archived Bookmarks</H1>\n<DL><p>\n\n</DL><p>" := by
  refine ⟨?_, ?_, rfl⟩
  · intro files w
    cases w <;> rfl
  · intro n
    induction n with
    | zero => rfl
    | succ n ih =>
      rw [List.replicate_succ]
      exact ih

end PocketCsv
